import Mathlib

/-!
Verification of the ntp_dst NTP time server (src/ntp_dst.py) against its
specification. The Python source is shallowly embedded: datagrams are lists
of byte values (Nat), Python ints are Int, Python floats are modelled as
exact rationals, and code that can raise struct.error returns Except.
-/

set_option maxRecDepth 4000

namespace NtpDst

/-! ## Calendar model (Python datetime, proleptic Gregorian calendar)

Python datetime objects compare lexicographically by
(year, month, day, hour, minute, second); weekday() returns Monday = 0 ..
Sunday = 6. We model weekday via the proleptic-Gregorian ordinal
(0001-01-01 has ordinal 1 and is a Monday), exactly as CPython's
date.toordinal does. -/

def isLeap (y : Nat) : Bool := (y % 4 == 0 && y % 100 != 0) || (y % 400 == 0)

def daysInMonth (y m : Nat) : Nat :=
  if m = 2 then (if isLeap y then 29 else 28)
  else if m = 4 ∨ m = 6 ∨ m = 9 ∨ m = 11 then 30
  else 31

def daysBeforeMonthCommon (m : Nat) : Nat :=
  match m with
  | 1 => 0 | 2 => 31 | 3 => 59 | 4 => 90 | 5 => 120 | 6 => 151
  | 7 => 181 | 8 => 212 | 9 => 243 | 10 => 273 | 11 => 304 | _ => 334

def daysBeforeMonth (y m : Nat) : Nat :=
  daysBeforeMonthCommon m + (if 2 < m ∧ isLeap y then 1 else 0)

def daysBeforeYear (y : Nat) : Nat :=
  (y - 1) * 365 + ((y - 1) / 4 + (y - 1) / 400 - (y - 1) / 100)

def toOrdinal (y m d : Nat) : Nat := daysBeforeYear y + daysBeforeMonth y m + d

/-- Python date.weekday(): Monday = 0, ..., Sunday = 6. -/
def weekday (y m d : Nat) : Nat := (toOrdinal y m d + 6) % 7

/-- Python datetime, at second resolution (microseconds are irrelevant to
every claim considered here). -/
structure PyDateTime where
  year : Nat
  month : Nat
  day : Nat
  hour : Nat
  minute : Nat
  second : Nat
deriving DecidableEq, Repr

/-- datetime(y, m, d) with the time part zero, as in datetime(now.year, 4, 1). -/
def mkDT (y m d : Nat) : PyDateTime := ⟨y, m, d, 0, 0, 0⟩

/-- Python datetime strict comparison: lexicographic on the field tuple. -/
def dtLt (a b : PyDateTime) : Bool :=
  decide (a.year < b.year) ||
    (decide (a.year = b.year) && (decide (a.month < b.month) ||
      (decide (a.month = b.month) && (decide (a.day < b.day) ||
        (decide (a.day = b.day) && (decide (a.hour < b.hour) ||
          (decide (a.hour = b.hour) && (decide (a.minute < b.minute) ||
            (decide (a.minute = b.minute) && decide (a.second < b.second))))))))))

def dtLe (a b : PyDateTime) : Bool := dtLt a b || decide (a = b)

/-- Advance a datetime by one civil day (timedelta normalisation step). -/
def nextDay (t : PyDateTime) : PyDateTime :=
  if t.day < daysInMonth t.year t.month then { t with day := t.day + 1 }
  else if t.month < 12 then { t with month := t.month + 1, day := 1 }
  else { t with year := t.year + 1, month := 1, day := 1 }

/-- t + timedelta(days = n), keeping the time of day. -/
def addDays (t : PyDateTime) : Nat → PyDateTime
  | 0 => t
  | n + 1 => addDays (nextDay t) n

/-- The datetime one second earlier (used to state the boundary claim
about the instant one second before a first-Sunday midnight). -/
def predSecond (t : PyDateTime) : PyDateTime :=
  if 0 < t.second then { t with second := t.second - 1 }
  else if 0 < t.minute then { t with minute := t.minute - 1, second := 59 }
  else if 0 < t.hour then { t with hour := t.hour - 1, minute := 59, second := 59 }
  else if 1 < t.day then { t with day := t.day - 1, hour := 23, minute := 59, second := 59 }
  else if 1 < t.month then
    { year := t.year, month := t.month - 1, day := daysInMonth t.year (t.month - 1),
      hour := 23, minute := 59, second := 59 }
  else { year := t.year - 1, month := 12, day := 31, hour := 23, minute := 59, second := 59 }

/-! ## DST offset calculator (is_dst and the offset applied by
get_spoofed_ntp_time, src/ntp_dst.py lines 33-54) -/

/-- Source line 41/42: first day of the month plus
timedelta(days = 6 - weekday), Sunday being weekday 6. -/
def first_sunday (y m : Nat) : PyDateTime :=
  addDays (mkDT y m 1) (6 - weekday y m 1)

/-- is_dst() from the source, with datetime.now() made an explicit
parameter: False exactly when
first_sunday_april <= now < first_sunday_october. -/
def is_dst (now : PyDateTime) : Bool :=
  let first_sunday_april := first_sunday now.year 4
  let first_sunday_october := first_sunday now.year 10
  if dtLe first_sunday_april now && dtLt now first_sunday_october then false else true

/-- The whole-second offset get_spoofed_ntp_time adds:
(1 if is_dst() else 0) * 3600. -/
def dst_offset_seconds (now : PyDateTime) : Nat :=
  (if is_dst now then 1 else 0) * 3600

/-! ## Numbers: Python int vs float

The upstream fetch returns a Python int on success but the float
time.time() on fallback; the distinction is part of claim C6, so we track
it. Floats are modelled as exact rationals (every concrete value used in a
theorem below is an exactly representable dyadic). -/

inductive PyNum
  | pint (n : Int)
  | pfloat (q : ℚ)
deriving DecidableEq, Repr

def PyNum.val : PyNum → ℚ
  | .pint n => n
  | .pfloat q => q

def PyNum.isInt : PyNum → Bool
  | .pint _ => true
  | .pfloat _ => false

/-- Python int(x): truncation toward zero for a float, identity on an int. -/
def pyInt (q : ℚ) : Int := if 0 ≤ q then ⌊q⌋ else -⌊-q⌋

/-! ## Byte-level packet model (struct.unpack / struct.pack) -/

/-- Big-endian 32-bit word number i of a byte list (word i occupies bytes
4*i .. 4*i+3), as struct.unpack with format 12I reads them. -/
def be32at (l : List Nat) (i : Nat) : Nat :=
  l.getD (4 * i) 0 * 16777216 + l.getD (4 * i + 1) 0 * 65536 +
    l.getD (4 * i + 2) 0 * 256 + l.getD (4 * i + 3) 0

/-- Big-endian bytes of a 32-bit word, as struct.pack format I writes them. -/
def u32be (n : Nat) : List Nat :=
  [n / 16777216 % 256, n / 65536 % 256, n / 256 % 256, n % 256]

def NTP_TIMESTAMP_DELTA : Nat := 2208988800

inductive PyError
  | structError
deriving DecidableEq, Repr

/-- The transmit-timestamp extraction of create_ntp_response lines 58-60
(struct.unpack of format 12I followed by taking words 10 and 11); this is
the decode_request operation of the spec. struct.unpack raises
struct.error unless the buffer is exactly 48 bytes. -/
def decode_request (data : List Nat) : Except PyError (Nat × Nat) :=
  if data.length = 48 then .ok (be32at data 10, be32at data 11) else .error .structError

/-- struct.pack range check for format B (unsigned byte). -/
def packOkB (n : Int) : Prop := 0 ≤ n ∧ n < 256

/-- struct.pack range check for format b (signed byte). -/
def packOkb (n : Int) : Prop := -128 ≤ n ∧ n ≤ 127

/-- struct.pack range check for format I (unsigned 32-bit). struct.pack
raises struct.error for an out-of-range value; it does not wrap. -/
def packOkI (n : Int) : Prop := 0 ≤ n ∧ n < 4294967296

instance (n : Int) : Decidable (packOkB n) := by unfold packOkB; infer_instance
instance (n : Int) : Decidable (packOkb n) := by unfold packOkb; infer_instance
instance (n : Int) : Decidable (packOkI n) := by unfold packOkI; infer_instance

/-- On-wire byte for a signed-byte field (two's complement). -/
def i8byte (n : Int) : Nat := (n % 256).toNat

def LI_VN_MODE : Nat := (0 <<< 6) ||| (4 <<< 3) ||| 4

/-! ## Upstream time source (get_time_from_ntp_server, lines 11-30)

upstream = none models any network-level failure of sendto/recvfrom
(timeout, DNS failure, connection refused); some reply gives the received
datagram's bytes. The except-branch returns time.time(), the local system
clock as a Python float, modelled by the local_clock parameter. -/

def get_time_from_ntp_server (upstream : Option (List Nat)) (local_clock : ℚ) : PyNum :=
  match upstream with
  | none => .pfloat local_clock
  | some reply =>
      if reply.length = 48 then .pint (be32at reply 10) else .pfloat local_clock

/-- get_spoofed_ntp_time (lines 50-55): fetched time plus
(1 if is_dst() else 0) * 3600. Python int + int is an int; float + int is
a float. -/
def get_spoofed_ntp_time (upstream : Option (List Nat)) (local_clock : ℚ)
    (now : PyDateTime) : PyNum :=
  match get_time_from_ntp_server upstream local_clock with
  | .pint n => .pint (n + (if is_dst now then 1 else 0) * 3600)
  | .pfloat q => .pfloat (q + (if is_dst now then 1 else 0) * 3600)

/-! ## NTP response construction (create_ntp_response, lines 57-94) -/

/-- Line 66: fractional_seconds = int((spoofed_ntp_time % 1) * 2**32).
For a Python int this is 0 (n % 1 = 0); for a float q, q % 1 is the
nonnegative fractional part q - floor q. -/
def fractional_seconds (spoofed_ntp_time : PyNum) : Int :=
  match spoofed_ntp_time with
  | .pint _ => 0
  | .pfloat q => pyInt ((q - ⌊q⌋) * 4294967296)

/-- Line 69: spoofed_ntp_time_int = int(spoofed_ntp_time). -/
def spoofed_int (spoofed_ntp_time : PyNum) : Int :=
  match spoofed_ntp_time with
  | .pint n => n
  | .pfloat q => pyInt q

/-- The byte image struct.pack format B b b b 11I produces for the
response fields, once every argument passed the range checks. -/
def responseBytes (s f cs cf : Nat) : List Nat :=
  [LI_VN_MODE, i8byte 1, i8byte 4, i8byte (-20)] ++
    u32be 0 ++ u32be 0 ++ u32be 0x4C4F434C ++
    u32be s ++ u32be f ++ u32be cs ++ u32be cf ++
    u32be s ++ u32be f ++ u32be s ++ u32be f

/-- create_ntp_response (lines 57-94): unpack the 48-byte client packet
(words 10 and 11 are the client transmit timestamp), then struct.pack
the response. struct.unpack raises struct.error on a wrong-length buffer
and struct.pack raises struct.error on any out-of-range field value; both
are modelled as the error branch. -/
def create_ntp_response (client_data : List Nat) (spoofed_ntp_time : PyNum) :
    Except PyError (List Nat) :=
  if client_data.length = 48 then
    if packOkB LI_VN_MODE ∧ packOkb 1 ∧ packOkb 4 ∧ packOkb (-20) ∧
        packOkI 0 ∧ packOkI 0 ∧ packOkI 0x4C4F434C ∧
        packOkI (spoofed_int spoofed_ntp_time) ∧
        packOkI (fractional_seconds spoofed_ntp_time) ∧
        packOkI (be32at client_data 10) ∧ packOkI (be32at client_data 11) then
      .ok (responseBytes (spoofed_int spoofed_ntp_time).toNat
        (fractional_seconds spoofed_ntp_time).toNat
        (be32at client_data 10) (be32at client_data 11))
    else .error .structError
  else .error .structError

/-- One request handled as in the body of the run_ntp_server loop (lines
102-110): compute the spoofed time, then build the response. Any raised
struct.error propagates (the loop has no exception handler). -/
def handle_request (client_data : List Nat) (upstream : Option (List Nat))
    (local_clock : ℚ) (now : PyDateTime) : Except PyError (List Nat) :=
  create_ntp_response client_data (get_spoofed_ntp_time upstream local_clock now)

/-- run_ntp_server's while-loop (lines 102-110) over a finite list of
inbound datagrams under a fixed environment. Returns the responses sent,
in order, and the uncaught exception that terminated the process, if any;
there is no try/except in the loop, so an error stops everything. -/
def run_ntp_server (upstream : Option (List Nat)) (local_clock : ℚ)
    (now : PyDateTime) : List (List Nat) → List (List Nat) × Option PyError
  | [] => ([], none)
  | d :: rest =>
      match handle_request d upstream local_clock now with
      | .error e => ([], some e)
      | .ok resp =>
          let r := run_ntp_server upstream local_clock now rest
          (resp :: r.1, r.2)

/-! ## Helper lemmas: calendar -/

lemma dtLt_iff (a b : PyDateTime) : dtLt a b = true ↔
    a.year < b.year ∨ (a.year = b.year ∧ (a.month < b.month ∨ (a.month = b.month ∧
      (a.day < b.day ∨ (a.day = b.day ∧ (a.hour < b.hour ∨ (a.hour = b.hour ∧
        (a.minute < b.minute ∨ (a.minute = b.minute ∧ a.second < b.second))))))))) := by
  simp [dtLt]

lemma dtLe_iff (a b : PyDateTime) : dtLe a b = true ↔ (dtLt a b = true ∨ a = b) := by
  simp [dtLe]

lemma weekday_lt (y m d : Nat) : weekday y m d < 7 := Nat.mod_lt _ (by norm_num)

lemma daysInMonth_march (y : Nat) : daysInMonth y 3 = 31 := by simp [daysInMonth]

lemma daysInMonth_april (y : Nat) : daysInMonth y 4 = 30 := by simp [daysInMonth]

lemma daysInMonth_october (y : Nat) : daysInMonth y 10 = 31 := by simp [daysInMonth]

lemma addDays_no_rollover (y m : Nat) : ∀ k d : Nat, 1 ≤ d → d + k ≤ daysInMonth y m →
    addDays (mkDT y m d) k = mkDT y m (d + k) := by
  intro k
  induction k with
  | zero => intro d _ _; rfl
  | succ n ih =>
    intro d hd h
    have hlt : d < daysInMonth y m := by omega
    show addDays (nextDay (mkDT y m d)) n = _
    have hnd : nextDay (mkDT y m d) = mkDT y m (d + 1) := by
      simp [nextDay, mkDT, hlt]
    rw [hnd, ih (d + 1) (by omega) (by omega)]
    congr 1
    omega

lemma first_sunday_eq (y m : Nat) (h : 7 ≤ daysInMonth y m) :
    first_sunday y m = mkDT y m (1 + (6 - weekday y m 1)) := by
  have hw := weekday_lt y m 1
  rw [first_sunday, addDays_no_rollover y m (6 - weekday y m 1) 1 (by omega) (by omega)]

lemma first_sunday_april_eq (y : Nat) :
    first_sunday y 4 = mkDT y 4 (1 + (6 - weekday y 4 1)) :=
  first_sunday_eq y 4 (by rw [daysInMonth_april]; omega)

lemma first_sunday_october_eq (y : Nat) :
    first_sunday y 10 = mkDT y 10 (1 + (6 - weekday y 10 1)) :=
  first_sunday_eq y 10 (by rw [daysInMonth_october]; omega)

lemma weekday_day_shift (y m d k : Nat) : weekday y m (d + k) = (weekday y m d + k) % 7 := by
  simp only [weekday, toOrdinal]
  omega

lemma weekday_first_sunday (y m : Nat) (h : 7 ≤ daysInMonth y m) :
    weekday y m (first_sunday y m).day = 6 := by
  have hw := weekday_lt y m 1
  rw [first_sunday_eq y m h]
  show weekday y m (1 + (6 - weekday y m 1)) = 6
  simp only [weekday, toOrdinal]
  omega

lemma dst_offset_cases (now : PyDateTime) :
    dst_offset_seconds now =
      if dtLe (first_sunday now.year 4) now && dtLt now (first_sunday now.year 10)
      then 0 else 3600 := by
  simp only [dst_offset_seconds, is_dst]
  split <;> simp

/-! ## Claims C4 and C3: the DST offset calculator -/

/-- Claim C4: for every year, the first-Sunday-of-April and
first-Sunday-of-October dates computed by the DST calculator (first day of
the month plus days-until-next-Sunday, Sunday being weekday 6 in a
Monday-start week) are each an actual Sunday and fall within days 1
through 7 of their month. -/
theorem claim_C4_first_sundays (y : Nat) :
    (first_sunday y 4).year = y ∧ (first_sunday y 4).month = 4 ∧
      1 ≤ (first_sunday y 4).day ∧ (first_sunday y 4).day ≤ 7 ∧
      weekday y 4 (first_sunday y 4).day = 6 ∧
    (first_sunday y 10).year = y ∧ (first_sunday y 10).month = 10 ∧
      1 ≤ (first_sunday y 10).day ∧ (first_sunday y 10).day ≤ 7 ∧
      weekday y 10 (first_sunday y 10).day = 6 := by
  have hwA := weekday_lt y 4 1
  have hwO := weekday_lt y 10 1
  have hA := first_sunday_april_eq y
  have hO := first_sunday_october_eq y
  refine ⟨?_, ?_, ?_, ?_, ?_, ?_, ?_, ?_, ?_, ?_⟩
  · rw [hA]; rfl
  · rw [hA]; rfl
  · rw [hA]; show 1 ≤ 1 + (6 - weekday y 4 1); omega
  · rw [hA]; show 1 + (6 - weekday y 4 1) ≤ 7; omega
  · exact weekday_first_sunday y 4 (by rw [daysInMonth_april]; omega)
  · rw [hO]; rfl
  · rw [hO]; rfl
  · rw [hO]; show 1 ≤ 1 + (6 - weekday y 10 1); omega
  · rw [hO]; show 1 + (6 - weekday y 10 1) ≤ 7; omega
  · exact weekday_first_sunday y 10 (by rw [daysInMonth_october]; omega)

lemma dtLt_irrefl (t : PyDateTime) : dtLt t t = false := by simp [dtLt]

lemma dtLe_refl (t : PyDateTime) : dtLe t t = true := by simp [dtLe]

lemma predSecond_midnight (y m d : Nat) (hd : 1 < d) :
    predSecond (mkDT y m d) = ⟨y, m, d - 1, 23, 59, 59⟩ := by
  simp [predSecond, mkDT, hd]

lemma predSecond_first_of_month (y m : Nat) (hm : 1 < m) :
    predSecond (mkDT y m 1) = ⟨y, m - 1, daysInMonth y (m - 1), 23, 59, 59⟩ := by
  simp [predSecond, mkDT, hm]

/-- Claim C3: the offset get_spoofed_ntp_time adds is 0 whole seconds when
first_sunday_april <= now < first_sunday_october (for now's year) and 3600
whole seconds otherwise; the window is half-open: at the first-Sunday-of-
April midnight itself the offset is 0, one second before it the offset is
3600, and at the first-Sunday-of-October midnight the offset is 3600. -/
theorem claim_C3_dst_offset_rule :
    (∀ now : PyDateTime, dst_offset_seconds now =
        if dtLe (first_sunday now.year 4) now && dtLt now (first_sunday now.year 10)
        then 0 else 3600) ∧
    (∀ y : Nat, dst_offset_seconds (first_sunday y 4) = 0) ∧
    (∀ y : Nat, dst_offset_seconds (predSecond (first_sunday y 4)) = 3600) ∧
    (∀ y : Nat, dst_offset_seconds (first_sunday y 10) = 3600) := by
  have hyrA : ∀ y : Nat, (first_sunday y 4).year = y := by
    intro y; rw [first_sunday_april_eq]; rfl
  have hyrO : ∀ y : Nat, (first_sunday y 10).year = y := by
    intro y; rw [first_sunday_october_eq]; rfl
  refine ⟨dst_offset_cases, ?_, ?_, ?_⟩
  · -- exactly at the April first-Sunday midnight: offset 0
    intro y
    have hlt : dtLt (first_sunday y 4) (first_sunday y 10) = true := by
      rw [first_sunday_april_eq, first_sunday_october_eq, dtLt_iff]
      exact Or.inr ⟨rfl, Or.inl (by norm_num [mkDT])⟩
    rw [dst_offset_cases, hyrA, dtLe_refl, hlt]
    rfl
  · -- one second before the April first-Sunday midnight: offset 3600
    intro y
    have hw := weekday_lt y 4 1
    rw [first_sunday_april_eq]
    rcases Nat.eq_zero_or_pos (6 - weekday y 4 1) with hk | hk
    · rw [hk, Nat.add_zero, predSecond_first_of_month y 4 (by omega), daysInMonth_march]
      have hle : dtLe (first_sunday y 4) ⟨y, 3, 31, 23, 59, 59⟩ = false := by
        rw [first_sunday_april_eq, hk, Nat.add_zero]
        refine Bool.eq_false_iff.mpr ?_
        intro h
        rw [dtLe_iff, dtLt_iff] at h
        simp [mkDT, PyDateTime.mk.injEq] at h
      have hyr : (⟨y, 3, 31, 23, 59, 59⟩ : PyDateTime).year = y := rfl
      rw [dst_offset_cases, hyr, hle, Bool.false_and]
      rfl
    · rw [predSecond_midnight y 4 (1 + (6 - weekday y 4 1)) (by omega)]
      have hle : dtLe (first_sunday y 4)
          ⟨y, 4, 1 + (6 - weekday y 4 1) - 1, 23, 59, 59⟩ = false := by
        rw [first_sunday_april_eq]
        refine Bool.eq_false_iff.mpr ?_
        intro h
        rw [dtLe_iff, dtLt_iff] at h
        simp [mkDT, PyDateTime.mk.injEq] at h
      have hyr : (⟨y, 4, 1 + (6 - weekday y 4 1) - 1, 23, 59, 59⟩ : PyDateTime).year = y := rfl
      rw [dst_offset_cases, hyr, hle, Bool.false_and]
      rfl
  · -- exactly at the October first-Sunday midnight: offset 3600
    intro y
    rw [dst_offset_cases, hyrO, dtLt_irrefl, Bool.and_false]
    rfl

/-! ## Helper lemmas: bytes and packets -/

lemma getD_lt_of_bytes (l : List Nat) (h : ∀ b ∈ l, b < 256) (i : Nat) :
    l.getD i 0 < 256 := by
  induction l generalizing i with
  | nil => simp [List.getD]
  | cons a t ih =>
    cases i with
    | zero => exact h a (by simp)
    | succ j =>
      simp only [List.getD_cons_succ]
      exact ih (fun b hb => h b (by simp [hb])) j

lemma be32at_lt (l : List Nat) (i : Nat) (h : ∀ b ∈ l, b < 256) :
    be32at l i < 4294967296 := by
  have h0 := getD_lt_of_bytes l h (4 * i)
  have h1 := getD_lt_of_bytes l h (4 * i + 1)
  have h2 := getD_lt_of_bytes l h (4 * i + 2)
  have h3 := getD_lt_of_bytes l h (4 * i + 3)
  unfold be32at
  omega

lemma be32_u32be (n : Nat) (h : n < 4294967296) :
    n / 16777216 % 256 * 16777216 + n / 65536 % 256 * 65536 +
      n / 256 % 256 * 256 + n % 256 = n := by
  omega

lemma be32at_responseBytes_4 (s f cs cf : Nat) (h : s < 4294967296) :
    be32at (responseBytes s f cs cf) 4 = s := by
  show s / 16777216 % 256 * 16777216 + s / 65536 % 256 * 65536 +
    s / 256 % 256 * 256 + s % 256 = s
  exact be32_u32be s h

lemma be32at_responseBytes_5 (s f cs cf : Nat) (h : f < 4294967296) :
    be32at (responseBytes s f cs cf) 5 = f := by
  show f / 16777216 % 256 * 16777216 + f / 65536 % 256 * 65536 +
    f / 256 % 256 * 256 + f % 256 = f
  exact be32_u32be f h

lemma be32at_responseBytes_6 (s f cs cf : Nat) (h : cs < 4294967296) :
    be32at (responseBytes s f cs cf) 6 = cs := by
  show cs / 16777216 % 256 * 16777216 + cs / 65536 % 256 * 65536 +
    cs / 256 % 256 * 256 + cs % 256 = cs
  exact be32_u32be cs h

lemma be32at_responseBytes_7 (s f cs cf : Nat) (h : cf < 4294967296) :
    be32at (responseBytes s f cs cf) 7 = cf := by
  show cf / 16777216 % 256 * 16777216 + cf / 65536 % 256 * 65536 +
    cf / 256 % 256 * 256 + cf % 256 = cf
  exact be32_u32be cf h

lemma be32at_responseBytes_8 (s f cs cf : Nat) (h : s < 4294967296) :
    be32at (responseBytes s f cs cf) 8 = s := by
  show s / 16777216 % 256 * 16777216 + s / 65536 % 256 * 65536 +
    s / 256 % 256 * 256 + s % 256 = s
  exact be32_u32be s h

lemma be32at_responseBytes_9 (s f cs cf : Nat) (h : f < 4294967296) :
    be32at (responseBytes s f cs cf) 9 = f := by
  show f / 16777216 % 256 * 16777216 + f / 65536 % 256 * 65536 +
    f / 256 % 256 * 256 + f % 256 = f
  exact be32_u32be f h

lemma be32at_responseBytes_10 (s f cs cf : Nat) (h : s < 4294967296) :
    be32at (responseBytes s f cs cf) 10 = s := by
  show s / 16777216 % 256 * 16777216 + s / 65536 % 256 * 65536 +
    s / 256 % 256 * 256 + s % 256 = s
  exact be32_u32be s h

lemma be32at_responseBytes_11 (s f cs cf : Nat) (h : f < 4294967296) :
    be32at (responseBytes s f cs cf) 11 = f := by
  show f / 16777216 % 256 * 16777216 + f / 65536 % 256 * 65536 +
    f / 256 % 256 * 256 + f % 256 = f
  exact be32_u32be f h

lemma responseBytes_length (s f cs cf : Nat) : (responseBytes s f cs cf).length = 48 := rfl

lemma fractional_seconds_ok (s : PyNum) : packOkI (fractional_seconds s) := by
  cases s with
  | pint n =>
    constructor
    · show (0 : Int) ≤ 0
      exact le_refl 0
    · show (0 : Int) < 4294967296
      norm_num
  | pfloat q =>
    have hnn : (0 : ℚ) ≤ (q - ⌊q⌋) * 4294967296 := by
      have : (0 : ℚ) ≤ q - ⌊q⌋ := by
        have := Int.floor_le q
        linarith
      positivity
    have hlt : (q - ⌊q⌋) * 4294967296 < 4294967296 := by
      have : q - ⌊q⌋ < 1 := by
        have := Int.lt_floor_add_one q
        linarith
      nlinarith
    constructor
    · show (0 : Int) ≤ pyInt ((q - ⌊q⌋) * 4294967296)
      rw [pyInt, if_pos hnn]
      exact Int.floor_nonneg.mpr hnn
    · show pyInt ((q - ⌊q⌋) * 4294967296) < 4294967296
      rw [pyInt, if_pos hnn]
      rw [Int.floor_lt]
      push_cast
      exact hlt

lemma create_ok (req : List Nat) (s : PyNum) (h48 : req.length = 48)
    (hs : packOkI (spoofed_int s))
    (hcs : be32at req 10 < 4294967296) (hcf : be32at req 11 < 4294967296) :
    create_ntp_response req s =
      .ok (responseBytes (spoofed_int s).toNat (fractional_seconds s).toNat
        (be32at req 10) (be32at req 11)) := by
  have hbig : packOkB LI_VN_MODE ∧ packOkb 1 ∧ packOkb 4 ∧ packOkb (-20) ∧
      packOkI 0 ∧ packOkI 0 ∧ packOkI 0x4C4F434C ∧
      packOkI (spoofed_int s) ∧ packOkI (fractional_seconds s) ∧
      packOkI (be32at req 10) ∧ packOkI (be32at req 11) :=
    ⟨by decide, by decide, by decide, by decide, by decide, by decide, by decide,
      hs, fractional_seconds_ok s,
      ⟨Int.natCast_nonneg _, by exact_mod_cast hcs⟩,
      ⟨Int.natCast_nonneg _, by exact_mod_cast hcf⟩⟩
  unfold create_ntp_response
  rw [if_pos h48, if_pos hbig]

lemma is_dst_true_of_offset (now : PyDateTime) (h : dst_offset_seconds now = 3600) :
    is_dst now = true := by
  unfold dst_offset_seconds at h
  cases hd : is_dst now
  · rw [hd] at h
    simp at h
  · rfl

lemma get_spoofed_success (reply : List Nat) (clock : ℚ) (now : PyDateTime)
    (h : reply.length = 48) :
    get_spoofed_ntp_time (some reply) clock now =
      .pint (be32at reply 10 + (if is_dst now then 1 else 0) * 3600) := by
  simp [get_spoofed_ntp_time, get_time_from_ntp_server, h]

/-! ## Sample concrete data for witnesses and counterexamples -/

/-- A well-formed 48-byte client request whose transmit timestamp words
(words 10 and 11) are 100 and 200. -/
def sampleRequest : List Nat := List.replicate 40 0 ++ [0, 0, 0, 100, 0, 0, 0, 200]

/-- A well-formed all-zero 48-byte upstream reply (transmit seconds 0). -/
def sampleReply : List Nat := List.replicate 48 0

/-- An upstream reply whose transmit-timestamp seconds word is the maximal
32-bit value 4294967295. -/
def sampleReplyMax : List Nat := List.replicate 40 0 ++ [255, 255, 255, 255, 0, 0, 0, 0]

/-- January 15, 2024: a date outside the April-October window, so the DST
offset is 3600. -/
def sampleNow : PyDateTime := mkDT 2024 1 15

/-! ## Claim C2: end-to-end response contents -/

/-- Claim C2: for every 48-byte client request with transmit timestamp
(100, 200), when the upstream fetch succeeds with raw NTP seconds
X = word 10 of the reply and the DST offset is 3600 (and X + 3600 still
fits in 32 bits, without which struct.pack refuses to encode at all), the
response is exactly 48 bytes of big-endian fields: first byte
LI=0/VN=4/Mode=4 (36), Stratum 1, Poll 4, Precision -20 (byte 236), Root
Delay 0, Root Dispersion 0, Reference Identifier "LOCL" (76, 79, 67, 76),
Reference/Receive/Transmit timestamps (X + 3600, 0) and Originate
Timestamp (100, 200). -/
theorem claim_C2_end_to_end (req reply : List Nat) (clock : ℚ) (now : PyDateTime)
    (hreq : req.length = 48) (h10 : be32at req 10 = 100) (h11 : be32at req 11 = 200)
    (hrep : reply.length = 48) (hdst : dst_offset_seconds now = 3600)
    (hX : be32at reply 10 + 3600 < 4294967296) :
    handle_request req (some reply) clock now =
      .ok (responseBytes (be32at reply 10 + 3600) 0 100 200) ∧
    responseBytes (be32at reply 10 + 3600) 0 100 200 =
      [36, 1, 4, 236] ++ u32be 0 ++ u32be 0 ++ [76, 79, 67, 76] ++
        u32be (be32at reply 10 + 3600) ++ u32be 0 ++ u32be 100 ++ u32be 200 ++
        u32be (be32at reply 10 + 3600) ++ u32be 0 ++
        u32be (be32at reply 10 + 3600) ++ u32be 0 ∧
    (responseBytes (be32at reply 10 + 3600) 0 100 200).length = 48 := by
  refine ⟨?_, ?_, responseBytes_length _ _ _ _⟩
  case refine_2 =>
    have h1 : LI_VN_MODE = 36 := by decide
    have h2 : i8byte 1 = 1 := by decide
    have h3 : i8byte 4 = 4 := by decide
    have h4 : i8byte (-20) = 236 := by decide
    have h5 : u32be 0x4C4F434C = [76, 79, 67, 76] := by decide
    rw [responseBytes, h1, h2, h3, h4, h5]
  have hd : is_dst now = true := is_dst_true_of_offset now hdst
  have hsp : get_spoofed_ntp_time (some reply) clock now =
      PyNum.pint ((be32at reply 10 : Int) + 3600) := by
    rw [get_spoofed_success reply clock now hrep, hd]
    norm_num
  rw [handle_request, hsp]
  have hz : spoofed_int (PyNum.pint ((be32at reply 10 : Int) + 3600)) =
      (be32at reply 10 : Int) + 3600 := rfl
  have hs : packOkI (spoofed_int (PyNum.pint ((be32at reply 10 : Int) + 3600))) := by
    rw [hz]
    exact ⟨by omega, by exact_mod_cast hX⟩
  rw [create_ok req (PyNum.pint ((be32at reply 10 : Int) + 3600)) hreq hs
    (by rw [h10]; norm_num) (by rw [h11]; norm_num)]
  rw [h10, h11]
  have h1 : (spoofed_int (PyNum.pint ((be32at reply 10 : Int) + 3600))).toNat =
      be32at reply 10 + 3600 := by
    rw [hz]
    omega
  have h2 : (fractional_seconds (PyNum.pint ((be32at reply 10 : Int) + 3600))).toNat = 0 := rfl
  rw [h1, h2]

/-- Claim C2 witness: the end-to-end theorem evaluated at the sample
request, the all-zero upstream reply (X = 0) and a mid-January date. -/
theorem claim_C2_witness :
    handle_request sampleRequest (some sampleReply) 0 sampleNow =
      .ok (responseBytes (be32at sampleReply 10 + 3600) 0 100 200) ∧
    responseBytes (be32at sampleReply 10 + 3600) 0 100 200 =
      [36, 1, 4, 236] ++ u32be 0 ++ u32be 0 ++ [76, 79, 67, 76] ++
        u32be (be32at sampleReply 10 + 3600) ++ u32be 0 ++ u32be 100 ++ u32be 200 ++
        u32be (be32at sampleReply 10 + 3600) ++ u32be 0 ++
        u32be (be32at sampleReply 10 + 3600) ++ u32be 0 ∧
    (responseBytes (be32at sampleReply 10 + 3600) 0 100 200).length = 48 :=
  claim_C2_end_to_end sampleRequest sampleReply 0 sampleNow (by decide) (by decide)
    (by decide) (by decide) (by decide) (by decide)

/-! ## Claim C5: originate-timestamp echo -/

/-- Claim C5: for every valid 48-byte request buffer, the (seconds,
fraction) pair read from big-endian words 10 and 11 (the client transmit
timestamp) reappears unchanged as words 6 and 7 (the Originate Timestamp)
of the constructed response, whatever encodable spoofed time is used. -/
theorem claim_C5_originate_echo (req : List Nat) (s : PyNum) (h48 : req.length = 48)
    (hb : ∀ b ∈ req, b < 256) (hs : packOkI (spoofed_int s)) :
    ∃ resp, create_ntp_response req s = .ok resp ∧
      be32at resp 6 = be32at req 10 ∧ be32at resp 7 = be32at req 11 := by
  have hcs := be32at_lt req 10 hb
  have hcf := be32at_lt req 11 hb
  exact ⟨_, create_ok req s h48 hs hcs hcf,
    be32at_responseBytes_6 _ _ _ _ hcs, be32at_responseBytes_7 _ _ _ _ hcf⟩

/-- Claim C5 witness: the echo theorem at the sample request with spoofed
time 1000. -/
theorem claim_C5_witness :
    ∃ resp, create_ntp_response sampleRequest (.pint 1000) = .ok resp ∧
      be32at resp 6 = be32at sampleRequest 10 ∧ be32at resp 7 = be32at sampleRequest 11 :=
  claim_C5_originate_echo sampleRequest (.pint 1000) (by decide) (by decide) (by decide)

/-! ## Claim C9: shared Reference/Receive/Transmit timestamp -/

/-- Claim C9 (amended): in every constructed response the Reference,
Receive and Transmit timestamps share one (seconds, fraction) pair, and
that fraction is 0 whenever the spoofed time is a Python int — which is
the case whenever the upstream fetch succeeded. It is NOT always 0: the
local-clock fallback is a float whose fractional part reaches the wire
(see the counterexample). -/
theorem claim_C9_amended_shared_timestamp (req : List Nat) (s : PyNum)
    (h48 : req.length = 48) (hb : ∀ b ∈ req, b < 256) (hs : packOkI (spoofed_int s)) :
    ∃ resp, create_ntp_response req s = .ok resp ∧
      be32at resp 4 = be32at resp 8 ∧ be32at resp 8 = be32at resp 10 ∧
      be32at resp 5 = be32at resp 9 ∧ be32at resp 9 = be32at resp 11 ∧
      (s.isInt = true → be32at resp 5 = 0) := by
  have hcs := be32at_lt req 10 hb
  have hcf := be32at_lt req 11 hb
  have hsN : (spoofed_int s).toNat < 4294967296 := by
    rcases hs with ⟨h1, h2⟩
    omega
  have hfN : (fractional_seconds s).toNat < 4294967296 := by
    rcases fractional_seconds_ok s with ⟨h1, h2⟩
    omega
  refine ⟨_, create_ok req s h48 hs hcs hcf, ?_, ?_, ?_, ?_, ?_⟩
  · rw [be32at_responseBytes_4 _ _ _ _ hsN, be32at_responseBytes_8 _ _ _ _ hsN]
  · rw [be32at_responseBytes_8 _ _ _ _ hsN, be32at_responseBytes_10 _ _ _ _ hsN]
  · rw [be32at_responseBytes_5 _ _ _ _ hfN, be32at_responseBytes_9 _ _ _ _ hfN]
  · rw [be32at_responseBytes_9 _ _ _ _ hfN, be32at_responseBytes_11 _ _ _ _ hfN]
  · intro hi
    rw [be32at_responseBytes_5 _ _ _ _ hfN]
    cases s with
    | pint n => rfl
    | pfloat q => simp [PyNum.isInt] at hi

/-- Claim C9 witness: the amended theorem at the sample request and the
integer spoofed time 1000. -/
theorem claim_C9_witness :
    ∃ resp, create_ntp_response sampleRequest (.pint 1000) = .ok resp ∧
      be32at resp 4 = be32at resp 8 ∧ be32at resp 8 = be32at resp 10 ∧
      be32at resp 5 = be32at resp 9 ∧ be32at resp 9 = be32at resp 11 ∧
      ((PyNum.pint 1000).isInt = true → be32at resp 5 = 0) :=
  claim_C9_amended_shared_timestamp sampleRequest (.pint 1000) (by decide) (by decide)
    (by decide)

/-- Claim C9 counterexample to "the shared fraction component is always
0": when the upstream fetch fails and the local clock reads 100.5 seconds
(a float), the spoofed time is 100.5 + 3600 = 3700.5 and the response
carries fraction 2^31, not 0, in words 5, 9 and 11. -/
theorem claim_C9_cex_fallback_fraction_nonzero :
    handle_request sampleRequest none (201/2 : ℚ) sampleNow =
      .ok (responseBytes 3700 2147483648 100 200) ∧
    be32at (responseBytes 3700 2147483648 100 200) 5 = 2147483648 ∧
    (2147483648 : Nat) ≠ 0 := by
  refine ⟨?_, be32at_responseBytes_5 _ _ _ _ (by norm_num), by norm_num⟩
  have hd : is_dst sampleNow = true := by decide
  have hg : get_spoofed_ntp_time none (201/2 : ℚ) sampleNow =
      PyNum.pfloat (7401/2 : ℚ) := by
    simp only [get_spoofed_ntp_time, get_time_from_ntp_server, hd]
    norm_num
  rw [handle_request, hg]
  have hfl : (⌊(7401/2 : ℚ)⌋ : Int) = 3700 := by norm_num
  have hsi : spoofed_int (PyNum.pfloat (7401/2 : ℚ)) = 3700 := by
    simp only [spoofed_int, pyInt]
    rw [if_pos (by norm_num : (0 : ℚ) ≤ 7401/2)]
    exact hfl
  have hfr : fractional_seconds (PyNum.pfloat (7401/2 : ℚ)) = 2147483648 := by
    simp only [fractional_seconds]
    rw [hfl]
    have harg : ((7401/2 : ℚ) - ((3700 : Int) : ℚ)) * 4294967296 = 2147483648 := by
      norm_num
    rw [harg, pyInt, if_pos (by norm_num : (0 : ℚ) ≤ 2147483648)]
    norm_num
  have e1 : be32at sampleRequest 10 = 100 := by decide
  have e2 : be32at sampleRequest 11 = 200 := by decide
  rw [create_ok sampleRequest (PyNum.pfloat (7401/2 : ℚ)) (by decide)
    (by rw [hsi]; exact ⟨by norm_num, by norm_num⟩) (by rw [e1]; norm_num)
    (by rw [e2]; norm_num)]
  rw [hsi, hfr, e1, e2]
  rfl

/-! ## Claim C8: encoding a too-large seconds value -/

/-- Claim C8 (amended): if the computed timestamp's seconds component
exceeds the unsigned 32-bit range, struct.pack raises struct.error:
encoding FAILS rather than wrapping mod 2^32, and because nothing catches
the error it is fatal — no response is produced. -/
theorem claim_C8_amended_overflow_is_error (req : List Nat) (n : Int)
    (h48 : req.length = 48) (hn : 4294967296 ≤ n) :
    create_ntp_response req (.pint n) = .error .structError := by
  unfold create_ntp_response
  rw [if_pos h48, if_neg ?_]
  intro h
  have h8 : packOkI (spoofed_int (PyNum.pint n)) := h.2.2.2.2.2.2.2.1
  have hz : spoofed_int (PyNum.pint n) = n := rfl
  rw [hz] at h8
  exact absurd h8.2 (by omega)

/-- Claim C8 witness: the amended theorem at the sample request with
spoofed seconds 5000000000 (beyond 2^32 - 1). -/
theorem claim_C8_witness :
    create_ntp_response sampleRequest (.pint 5000000000) = .error .structError :=
  claim_C8_amended_overflow_is_error sampleRequest 5000000000 (by decide) (by decide)

/-- Claim C8 counterexample to "the value wraps mod 2^32 rather than
failing": an upstream reply carrying transmit seconds 4294967295 together
with the 3600-second DST offset makes the seconds component 4294970895,
and the whole request fails with struct.error instead of producing a
wrapped response. -/
theorem claim_C8_cex_overflow_fails :
    handle_request sampleRequest (some sampleReplyMax) 0 sampleNow =
      .error .structError := rfl

/-! ## Claim C6: totality and type of the upstream fetch -/

/-- Claim C6 (amended): the upstream fetch never raises: every call
returns a usable numeric value, which is either a Python int (on a
successful 48-byte exchange) or exactly the local clock float time.time()
(on any failure) — the fallback value is a float, not an integer. -/
theorem claim_C6_amended_total_fetch (upstream : Option (List Nat)) (clock : ℚ) :
    ((get_time_from_ntp_server upstream clock).isInt = true ∨
      get_time_from_ntp_server upstream clock = .pfloat clock) ∧
    get_time_from_ntp_server none clock = .pfloat clock := by
  refine ⟨?_, rfl⟩
  cases upstream with
  | none => exact Or.inr rfl
  | some reply =>
    by_cases hr : reply.length = 48
    · left
      simp [get_time_from_ntp_server, hr, PyNum.isInt]
    · right
      simp [get_time_from_ntp_server, hr]

/-- Claim C6 counterexample to "every call yields a usable integer": with
the upstream unreachable and the local clock at 100.5 seconds, the fetch
returns the float 100.5 — the local system clock's time, but not an
integer. -/
theorem claim_C6_cex_fallback_not_integer :
    get_time_from_ntp_server none (201/2 : ℚ) = .pfloat (201/2) ∧
    (get_time_from_ntp_server none (201/2 : ℚ)).isInt = false :=
  ⟨rfl, rfl⟩

/-! ## Claim C7: raw NTP seconds are returned unconverted -/

/-- Claim C7: on a successful exchange the fetch returns the reply's
big-endian word 10 (the transmit-timestamp seconds) raw, as an int; the
2208988800-second NTP-to-Unix epoch delta is NOT subtracted (the returned
value differs from the delta-subtracted one). -/
theorem claim_C7_returns_raw_seconds (reply : List Nat) (clock : ℚ)
    (h : reply.length = 48) :
    get_time_from_ntp_server (some reply) clock = .pint (be32at reply 10) ∧
    (be32at reply 10 : Int) ≠ (be32at reply 10 : Int) - (NTP_TIMESTAMP_DELTA : Int) := by
  constructor
  · simp [get_time_from_ntp_server, h]
  · have hd : (NTP_TIMESTAMP_DELTA : Int) = 2208988800 := rfl
    rw [hd]
    omega

/-- Claim C7 witness: the raw-seconds theorem at the all-zero 48-byte
reply. -/
theorem claim_C7_witness :
    get_time_from_ntp_server (some sampleReply) 5 = .pint (be32at sampleReply 10) ∧
    (be32at sampleReply 10 : Int) ≠
      (be32at sampleReply 10 : Int) - (NTP_TIMESTAMP_DELTA : Int) :=
  claim_C7_returns_raw_seconds sampleReply 5 (by decide)

/-! ## Claim C10: only exactly-48-byte replies are accepted -/

/-- Claim C10: a reply of any length other than exactly 48 bytes
(shorter or longer, extension fields included) makes struct.unpack raise,
so the fetch falls back to the local clock; only an exactly-48-byte reply
yields its transmit-timestamp seconds word. -/
theorem claim_C10_reply_length_gate (reply : List Nat) (clock : ℚ) :
    (reply.length ≠ 48 → get_time_from_ntp_server (some reply) clock = .pfloat clock) ∧
    (reply.length = 48 → get_time_from_ntp_server (some reply) clock =
      .pint (be32at reply 10)) := by
  constructor <;> intro h <;> simp [get_time_from_ntp_server, h]

/-- Claim C10 witness: a 10-byte reply and a 49-byte reply both fall back
to the local clock; the 48-byte reply is accepted. -/
theorem claim_C10_witness :
    get_time_from_ntp_server (some (List.replicate 10 0)) 5 = .pfloat 5 ∧
    get_time_from_ntp_server (some (List.replicate 49 0)) 5 = .pfloat 5 ∧
    get_time_from_ntp_server (some sampleReply) 7 = .pint (be32at sampleReply 10) :=
  ⟨(claim_C10_reply_length_gate (List.replicate 10 0) 5).1 (by decide),
   (claim_C10_reply_length_gate (List.replicate 49 0) 5).1 (by decide),
   (claim_C10_reply_length_gate sampleReply 7).2 (by decide)⟩

/-! ## Claim C1: malformed request handling -/

/-- Claim C1 (amended): a datagram whose length is not 48 bytes makes
decode fail with struct.error and no response is produced or sent for it —
but the exception propagates out of the unprotected while-loop: the server
CRASHES and does not continue handling subsequent requests. -/
theorem claim_C1_amended_malformed_crashes (d : List Nat) (rest : List (List Nat))
    (upstream : Option (List Nat)) (clock : ℚ) (now : PyDateTime)
    (h : d.length ≠ 48) :
    decode_request d = .error .structError ∧
    run_ntp_server upstream clock now (d :: rest) = ([], some .structError) := by
  have hh : handle_request d upstream clock now = .error .structError := by
    rw [handle_request]
    unfold create_ntp_response
    rw [if_neg h]
  constructor
  · rw [decode_request, if_neg h]
  · simp only [run_ntp_server, hh]

/-- Claim C1 witness: the amended theorem at a 10-byte datagram followed
by a further (well-formed) request. -/
theorem claim_C1_witness :
    decode_request (List.replicate 10 0) = .error .structError ∧
    run_ntp_server none 0 sampleNow (List.replicate 10 0 :: [sampleRequest]) =
      ([], some .structError) :=
  claim_C1_amended_malformed_crashes (List.replicate 10 0) [sampleRequest] none 0
    sampleNow (by decide)

/-- Claim C1 counterexample to "the loop does not crash and continues
handling subsequent requests": a 10-byte datagram followed by a perfectly
well-formed request leaves the loop crashed with struct.error, zero
responses sent — the decodable second request is never answered. -/
theorem claim_C1_cex_loop_crashes :
    decode_request (List.replicate 10 0) = .error .structError ∧
    decode_request sampleRequest = .ok (100, 200) ∧
    run_ntp_server none 0 sampleNow [List.replicate 10 0, sampleRequest] =
      ([], some .structError) :=
  ⟨rfl, rfl, rfl⟩

end NtpDst
